import Mathlib

/-!
Verification development for the `ai_automation_suggester` integration
(`custom_components/ai_automation_suggester/`: `__init__.py`, `coordinator.py`,
`sensor.py`, `config_flow.py`).

The Python source is shallowly embedded: every stateful routine becomes a pure
function over explicit state records, fallible operations return `Except`, and
machine-level details that the claims do not touch (HTTP transport, the event
loop, file IO) appear as explicit oracle/input parameters.  Timestamps are
modelled as naturals (`datetime` values are totally ordered and only compared
and printed), and Python dictionaries become association lists that preserve
insertion order.
-/

namespace AISuggester

/-- Python exception classes that the embedded code can raise. -/
inductive PyErr where
  | jsonDecodeError
  | attributeError
  | valueError (msg : String)
deriving DecidableEq, Repr

/-- JSON values, the result type of `json.loads`.

The numeric grammar is modelled over integers: the repository's JSON payloads
(suggestion records, counterexample inputs) use only integer literals, and a
number followed by `.`, `e` or `E` is rejected as outside the modelled
fragment.  String escapes cover the common single-character escapes; `\uXXXX`
is likewise outside the fragment and decodes to an error. -/
inductive JValue where
  | null
  | bool (b : Bool)
  | num (n : Int)
  | str (s : String)
  | arr (elems : List JValue)
  | obj (fields : List (String × JValue))

/-- Whether a `JValue` is a JSON array, i.e. whether the Python value that
`_parse_json_response` returns is a `list`. -/
def JValue.isList : JValue → Bool
  | .arr _ => true
  | _ => false

/-- JSON whitespace accepted between tokens by `json.loads`. -/
def isJsonWS (c : Char) : Bool :=
  c = ' ' || c = '\t' || c = '\n' || c = '\r'

def skipWS (cs : List Char) : List Char :=
  cs.dropWhile isJsonWS

/-- Strip a literal prefix from a character list, returning the remainder. -/
def stripChars : List Char → List Char → Option (List Char)
  | [], cs => some cs
  | _ :: _, [] => none
  | p :: ps, c :: cs => if c = p then stripChars ps cs else none

/-- Single-character JSON string escapes (after a backslash). -/
def decodeEsc (c : Char) : Option Char :=
  if c = '"' then some '"'
  else if c = '\\' then some '\\'
  else if c = '/' then some '/'
  else if c = 'n' then some '\n'
  else if c = 't' then some '\t'
  else if c = 'r' then some '\r'
  else if c = 'b' then some (Char.ofNat 8)
  else if c = 'f' then some (Char.ofNat 12)
  else none

/-- Numeric value of a run of decimal digits. -/
def digitsVal (l : List Char) : Nat :=
  l.foldl (fun a c => a * 10 + (c.toNat - '0'.toNat)) 0

/-- Parse a JSON number (integer fragment, see `JValue`). -/
def parseNum (cs : List Char) : Except PyErr (JValue × List Char) :=
  let (neg, cs') := match cs with
    | '-' :: r => (true, r)
    | _ => (false, cs)
  let ds := cs'.takeWhile Char.isDigit
  let rest := cs'.dropWhile Char.isDigit
  if ds.isEmpty then .error .jsonDecodeError
  else match rest with
    | '.' :: _ => .error .jsonDecodeError
    | 'e' :: _ => .error .jsonDecodeError
    | 'E' :: _ => .error .jsonDecodeError
    | _ => .ok (.num (if neg then -(digitsVal ds : Int) else (digitsVal ds : Int)), rest)

/-- Parse the body of a JSON string after the opening quote. -/
def parseStrBody : Nat → List Char → List Char → Except PyErr (String × List Char)
  | 0, _, _ => .error .jsonDecodeError
  | _ + 1, _acc, [] => .error .jsonDecodeError
  | fuel + 1, acc, c :: rest =>
    if c = '"' then .ok (⟨acc.reverse⟩, rest)
    else if c = '\\' then
      match rest with
      | [] => .error .jsonDecodeError
      | e :: rs =>
        match decodeEsc e with
        | some d => parseStrBody fuel (d :: acc) rs
        | none => .error .jsonDecodeError
    else parseStrBody fuel (c :: acc) rest

/-- Insert a key into an object under Python `dict` semantics: a duplicate key
overwrites the stored value but keeps the first-insertion position. -/
def objInsert (k : String) (v : JValue) : List (String × JValue) → List (String × JValue)
  | [] => [(k, v)]
  | (k', v') :: rest => if k' = k then (k, v) :: rest else (k', v') :: objInsert k v rest

mutual

/-- Recursive-descent JSON value parser modelling `json.loads` (see `JValue`
for the modelled fragment).  Fuel bounds the nesting depth. -/
def parseVal : Nat → List Char → Except PyErr (JValue × List Char)
  | 0, _ => .error .jsonDecodeError
  | fuel + 1, cs =>
    match skipWS cs with
    | [] => .error .jsonDecodeError
    | c :: rest =>
      if c = 'n' then
        match stripChars ['u', 'l', 'l'] rest with
        | some r => .ok (.null, r)
        | none => .error .jsonDecodeError
      else if c = 't' then
        match stripChars ['r', 'u', 'e'] rest with
        | some r => .ok (.bool true, r)
        | none => .error .jsonDecodeError
      else if c = 'f' then
        match stripChars ['a', 'l', 's', 'e'] rest with
        | some r => .ok (.bool false, r)
        | none => .error .jsonDecodeError
      else if c = '"' then
        match parseStrBody (rest.length + 1) [] rest with
        | .ok (s, r) => .ok (.str s, r)
        | .error e => .error e
      else if c = '[' then
        match skipWS rest with
        | ']' :: r => .ok (.arr [], r)
        | r => match parseElems fuel r with
          | .ok (vs, r') => .ok (.arr vs, r')
          | .error e => .error e
      else if c = '{' then
        match skipWS rest with
        | '}' :: r => .ok (.obj [], r)
        | r => match parseFields fuel [] r with
          | .ok (fs, r') => .ok (.obj fs, r')
          | .error e => .error e
      else if c = '-' || c.isDigit then parseNum (c :: rest)
      else .error .jsonDecodeError

/-- Parse the comma-separated elements of a non-empty JSON array. -/
def parseElems : Nat → List Char → Except PyErr (List JValue × List Char)
  | 0, _ => .error .jsonDecodeError
  | fuel + 1, cs =>
    match parseVal fuel cs with
    | .error e => .error e
    | .ok (v, r1) =>
      match skipWS r1 with
      | ']' :: r2 => .ok ([v], r2)
      | ',' :: r2 =>
        match parseElems fuel r2 with
        | .ok (vs, r3) => .ok (v :: vs, r3)
        | .error e => .error e
      | _ => .error .jsonDecodeError

/-- Parse the members of a non-empty JSON object, accumulating with
`objInsert`. -/
def parseFields : Nat → List (String × JValue) → List Char →
    Except PyErr (List (String × JValue) × List Char)
  | 0, _, _ => .error .jsonDecodeError
  | fuel + 1, acc, cs =>
    match skipWS cs with
    | '"' :: r =>
      match parseStrBody (r.length + 1) [] r with
      | .error e => .error e
      | .ok (k, r1) =>
        match skipWS r1 with
        | ':' :: r2 =>
          match parseVal fuel r2 with
          | .error e => .error e
          | .ok (v, r3) =>
            match skipWS r3 with
            | ',' :: r4 => parseFields fuel (objInsert k v acc) r4
            | '}' :: r4 => .ok (objInsert k v acc, r4)
            | _ => .error .jsonDecodeError
        | _ => .error .jsonDecodeError
    | _ => .error .jsonDecodeError

end

/-- Model of Python `json.loads` on a string: parse one value and require only
whitespace to remain. -/
def jsonLoads (s : String) : Except PyErr JValue :=
  match parseVal (s.length + 1) s.data with
  | .ok (v, rest) => if (skipWS rest).isEmpty then .ok v else .error .jsonDecodeError
  | .error e => .error e

/-! ### `_parse_json_response` (coordinator.py lines 221-242)

Stage 2 of the parser uses
`re.search(r"```(?:json)?\s*(\[[\s\S]*?\])\s*```", response, re.IGNORECASE)`.
The functions below implement that exact pattern: the scan tries successive
start positions left to right; at a position it matches three backticks, an
optional case-insensitive `json`, regex whitespace, then captures a bracketed
group lazily (the earliest closing bracket followed by whitespace and three
backticks wins). -/

/-- Characters matched by the regex class `\s` (ASCII range). -/
def isReWS (c : Char) : Bool :=
  c = ' ' || c = '\t' || c = '\n' || c = '\r' || c = '\x0b' || c = '\x0c'

def dropReWS (cs : List Char) : List Char :=
  cs.dropWhile isReWS

/-- ASCII lower-casing, for `re.IGNORECASE`. -/
def asciiLower (c : Char) : Char :=
  if 'A' ≤ c && c ≤ 'Z' then Char.ofNat (c.toNat + 32) else c

/-- Strip a literal prefix case-insensitively. -/
def stripCharsCI : List Char → List Char → Option (List Char)
  | [], cs => some cs
  | _ :: _, [] => none
  | p :: ps, c :: cs => if asciiLower c = asciiLower p then stripCharsCI ps cs else none

/-- Does `\s*` followed by three backticks match here? -/
def fenceFollows (cs : List Char) : Bool :=
  (stripChars ['`', '`', '`'] (dropReWS cs)).isSome

/-- Lazy body of the captured group `\[[\s\S]*?\]`: extend the group to the
earliest `]` after which the closing fence matches. -/
def grpLoop : Nat → List Char → List Char → Option (List Char)
  | 0, _, _ => none
  | _ + 1, _, [] => none
  | fuel + 1, acc, c :: rest =>
    if c = ']' && fenceFollows rest then some ((c :: acc).reverse)
    else grpLoop fuel (c :: acc) rest

/-- Match the captured group at a position expected to hold `[`. -/
def matchGroupAt : List Char → Option (List Char)
  | '[' :: rest => grpLoop (rest.length + 1) ['['] rest
  | _ => none

/-- Match the whole fenced-block pattern at one start position. -/
def matchFenceAt (cs : List Char) : Option (List Char) :=
  match stripChars ['`', '`', '`'] cs with
  | none => none
  | some r =>
    match stripCharsCI ['j', 's', 'o', 'n'] r with
    | some r2 =>
      match matchGroupAt (dropReWS r2) with
      | some g => some g
      | none => matchGroupAt (dropReWS r)
    | none => matchGroupAt (dropReWS r)

/-- `re.search`: try each start position from the left. -/
def searchFence : Nat → List Char → Option (List Char)
  | 0, _ => none
  | fuel + 1, cs =>
    match matchFenceAt cs with
    | some g => some g
    | none =>
      match cs with
      | [] => none
      | _ :: rest => searchFence fuel rest

/-- The `match.group(1)` string of the stage-2 regex, when the pattern
matches. -/
def findCodeBlock (s : String) : Option String :=
  (searchFence (s.length + 1) s.data).map fun g => ⟨g⟩

/-- `response.find('[')`: index of the first occurrence, if any. -/
def sFind (s : String) (c : Char) : Option Nat :=
  s.data.findIdx? (· = c)

/-- `response.rfind(']')`: index of the last occurrence, if any. -/
def sRfind (s : String) (c : Char) : Option Nat :=
  match (s.data.reverse.findIdx? (· = c)) with
  | some i => some (s.data.length - 1 - i)
  | none => none

/-- Python slice `s[a:b]` for non-negative bounds. -/
def pySlice (s : String) (a b : Nat) : String :=
  ⟨(s.data.drop a).take (b - a)⟩

/-- Stages 2 and 3 of `_parse_json_response`, i.e. the body of the second
`try` block: if the fenced-block regex matches, `json.loads` the group
(an exception here is caught by the enclosing `except` and stage 3 is *not*
attempted); otherwise slice from the first `[` to the last `]` and
`json.loads` that.  `.ok none` means control fell through to `return []`. -/
def stage23 (s : String) : Except PyErr (Option JValue) :=
  match findCodeBlock s with
  | some g =>
    match jsonLoads g with
    | .ok v => .ok (some v)
    | .error e => .error e
  | none =>
    match sFind s '[', sRfind s ']' with
    | some st, some en =>
      match jsonLoads (pySlice s st (en + 1)) with
      | .ok v => .ok (some v)
      | .error e => .error e
    | _, _ => .ok none

/-- `_parse_json_response` with the exception flow explicit: stage 1 catches
only `json.JSONDecodeError`; the second `try` catches every exception and the
function then returns `[]`.  The result is `.ok` in every case — the `.error`
constructor records what *would* escape, and nothing does. -/
def parseJsonResponseE (s : String) : Except PyErr JValue :=
  match jsonLoads s with
  | .ok v => .ok v
  | .error _ =>
    match stage23 s with
    | .ok (some v) => .ok v
    | .ok none => .ok (.arr [])
    | .error _ => .ok (.arr [])

/-- The value `_parse_json_response` returns (it never raises, see
`parseJsonResponseE`). -/
def parseJsonResponse (s : String) : JValue :=
  match parseJsonResponseE s with
  | .ok v => v
  | .error _ => .arr []

/-! ### Entity snapshot collection (coordinator.py lines 142-173)

A Home Assistant state object: state string, attribute bag and two
timestamps.  Attribute values in this development are strings (the only
operations the code performs on the bag are a `friendly_name` lookup and
`str()` rendering); timestamps are naturals, as `datetime` values are only
compared and printed. -/
structure HAState where
  state : String
  attributes : List (String × String)
  last_changed : Nat
  last_updated : Nat
deriving DecidableEq, Repr

/-- One entry of the coordinator's `current` dict (coordinator.py
lines 156-162). -/
structure EntityMeta where
  state : String
  attributes : List (String × String)
  last_changed : Nat
  last_updated : Nat
  friendly_name : String
deriving DecidableEq, Repr

/-- `eid.split(".")[0]`. -/
def entityDomain (eid : String) : String :=
  ⟨eid.data.takeWhile (· ≠ '.')⟩

/-- The dict value stored for a surviving entity (coordinator.py
lines 156-162): `friendly_name` falls back to the entity id. -/
def entityRecord (p : String × HAState) : EntityMeta :=
  { state := p.2.state
    attributes := p.2.attributes
    last_changed := p.2.last_changed
    last_updated := p.2.last_updated
    friendly_name := (p.2.attributes.lookup "friendly_name").getD p.1 }

/-- The entity-gathering loop (coordinator.py lines 143-162): skip entities
outside a non-empty domain filter, skip entities in state `unavailable` or
`unknown` (`continue`, line 154 — they are recorded nowhere), keep the rest. -/
def collectEntities (selected_domains : List String)
    (states : List (String × HAState)) : List (String × EntityMeta) :=
  states.filterMap fun p =>
    if !selected_domains.isEmpty && !selected_domains.contains (entityDomain p.1) then none
    else if p.2.state = "unavailable" || p.2.state = "unknown" then none
    else some (p.1, entityRecord p)

/-- Modelled from the spec: the §4.1 collector contract
`(snapshot: map<id, EntityRecord>, broken: list<id>)` — "Entities in state
`unavailable` or `unknown` go to `broken`, never into `snapshot`."  This
component is absent from the source (the loop at coordinator.py line 154
drops such entities without recording them); the definition exists to compare
the spec's claimed behaviour against `collectEntities`. -/
def collectEntitiesSpec (selected_domains : List String)
    (states : List (String × HAState)) : List (String × EntityMeta) × List String :=
  states.foldr
    (fun p acc =>
      if !selected_domains.isEmpty && !selected_domains.contains (entityDomain p.1) then acc
      else if p.2.state = "unavailable" || p.2.state = "unknown" then (acc.1, p.1 :: acc.2)
      else ((p.1, entityRecord p) :: acc.1, acc.2))
    ([], [])

/-- The delta/scan-all selection (coordinator.py lines 164-169): with
`scan_all` the full current snapshot, otherwise the entries whose key is not
in `previous_entities`. -/
def pickEntities (scan_all : Bool) (previous current : List (String × EntityMeta)) :
    List (String × EntityMeta) :=
  if scan_all then current
  else current.filter fun p => !((previous.map Prod.fst).contains p.1)

/-! ### Prompt construction (coordinator.py lines 247-379) -/

/-- An entity-registry entry, as used by `_build_prompt`. -/
structure EntityRegEntry where
  device_id : Option String
  area_id : Option String
deriving DecidableEq, Repr

/-- A device-registry entry, as used by `_build_prompt`. -/
structure DeviceEntry where
  id : String
  manufacturer : String
  model : String
  name : String
  name_by_user : Option String
  area_id : Option String
deriving DecidableEq, Repr

/-- One automation parsed out of `automations.yaml`: its `alias` key (if
present; named `alias_key` here because `alias` is reserved) and the opaque
`yaml.dump` rendering the code interpolates. -/
structure AutomationFileEntry where
  alias_key : Option String
  dump : String
deriving DecidableEq, Repr

/-- The read-only surroundings `_build_prompt` consults: the three
registries, the `automation.*` state machine entries, and the parsed content
of `automations.yaml` (`none` models a failed read, whose exception the
method catches). -/
structure PromptEnv where
  entity_registry : List (String × EntityRegEntry)
  device_registry : List (String × DeviceEntry)
  area_registry : List (String × String)
  automation_states : List (String × HAState)
  automations_file : Option (List AutomationFileEntry)
deriving DecidableEq, Repr

/-- Python slice `s[:n]`. -/
def strTake (s : String) (n : Nat) : String :=
  ⟨s.data.take n⟩

/-- `str()` rendering of a string-valued attribute dict:
`\x7b'key': 'value', ...\x7d`. -/
def pyReprStrDict (l : List (String × String)) : String :=
  "\x7b" ++ String.intercalate ", " (l.map fun p => "'" ++ p.1 ++ "': '" ++ p.2 ++ "'") ++ "\x7d"

/-- Attribute truncation (coordinator.py lines 265-267): cut at `max_attr`
characters and append the marker. -/
def truncAttr (max_attr : Nat) (s : String) : String :=
  if s.length > max_attr then strTake s max_attr ++ "...(truncated)" else s

/-- Stable descending insertion by `last_updated`, modelling Python's stable
`sorted(..., key=lambda x: x[1].get("last_updated", datetime.min),
reverse=True)` (coordinator.py lines 256-260): an element is placed before
the first element with a key not exceeding its own, so equal keys keep their
original relative order. -/
def insertByLastUpdatedDesc (x : String × EntityMeta) :
    List (String × EntityMeta) → List (String × EntityMeta)
  | [] => [x]
  | y :: ys =>
    if x.2.last_updated < y.2.last_updated then y :: insertByLastUpdatedDesc x ys
    else x :: y :: ys

def sortByLastUpdatedDesc (l : List (String × EntityMeta)) : List (String × EntityMeta) :=
  l.foldr insertByLastUpdatedDesc []

/-- One per-entity block of the prompt (coordinator.py lines 263-312),
including registry-derived area and device context.  Python truthiness on
`ent_entry.area_id` and `dev_entry.name_by_user` (empty strings are falsy) is
reproduced. -/
def entityBlock (env : PromptEnv) (eid : String) (meta : EntityMeta) : String :=
  let domain := entityDomain eid
  let attr_str := truncAttr 500 (pyReprStrDict meta.attributes)
  let ent_entry := env.entity_registry.lookup eid
  let dev_entry : Option DeviceEntry :=
    match ent_entry with
    | some e =>
      match e.device_id with
      | some d => if d ≠ "" then env.device_registry.lookup d else none
      | none => none
    | none => none
  let devArea : Option String :=
    match dev_entry with
    | some d => d.area_id
    | none => none
  let area_id : Option String :=
    match ent_entry with
    | some e =>
      match e.area_id with
      | some a => if a ≠ "" then some a else devArea
      | none => devArea
    | none => devArea
  let area_name :=
    match area_id with
    | some a =>
      if a ≠ "" then
        match env.area_registry.lookup a with
        | some n => n
        | none => "Unknown Area"
      else "Unknown Area"
    | none => "Unknown Area"
  "Entity: " ++ eid ++ "\n" ++
  "Friendly Name: " ++ meta.friendly_name ++ "\n" ++
  "Domain: " ++ domain ++ "\n" ++
  "State: " ++ meta.state ++ "\n" ++
  "Attributes: " ++ attr_str ++ "\n" ++
  "Area: " ++ area_name ++ "\n" ++
  (match dev_entry with
   | some d =>
     "Device Info:\n" ++
     "  Manufacturer: " ++ d.manufacturer ++ "\n" ++
     "  Model: " ++ d.model ++ "\n" ++
     "  Device Name: " ++
       (match d.name_by_user with
        | some n => if n ≠ "" then n else d.name
        | none => d.name) ++ "\n" ++
     "  Device ID: " ++ d.id ++ "\n"
   | none => "") ++
  "Last Changed: " ++ toString meta.last_changed ++ "\n" ++
  "Last Updated: " ++ toString meta.last_updated ++ "\n" ++
  "---\n"

/-- `_read_automations_default` (coordinator.py lines 336-351). -/
def readAutomationsDefault (env : PromptEnv) (max_autom max_attr : Nat) : List String :=
  (env.automation_states.take max_autom).map fun p =>
    let attr := truncAttr max_attr (pyReprStrDict p.2.attributes)
    "Entity: " ++ p.1 ++ "\n" ++
    "Friendly Name: " ++ ((p.2.attributes.lookup "friendly_name").getD p.1) ++ "\n" ++
    "State: " ++ p.2.state ++ "\n" ++
    "Attributes: " ++ attr ++ "\n" ++
    "---\n"

/-- `_read_automations_file_method` (coordinator.py lines 353-379): an
unreadable file yields `[]` (the `except` swallows the error before any block
is produced), an empty/None parse returns `[]`, otherwise one fenced block
per automation up to `max_autom`.  `max_attr` is accepted and unused, as in
the source. -/
def readAutomationsFileMethod (env : PromptEnv) (max_autom : Nat) (_max_attr : Nat) :
    List String :=
  match env.automations_file with
  | none => []
  | some autos =>
    if autos.isEmpty then []
    else (autos.take max_autom).map fun a =>
      "Automation: " ++ (a.alias_key.getD "Unknown") ++ "\n" ++
      "```yaml\n" ++ a.dump ++ "\n```\n"

/-- The transcription of the module-level `SYSTEM_PROMPT` constant
(coordinator.py lines 42-69). -/
def SYSTEM_PROMPT : String := "You are an intelligent Home Assistant expert.
Your goal is to analyze entities and existing automations to suggest IMPROVEMENTS or NEW automations.

IMPORTANT: You must output your response in strict JSON format.
Do not output any markdown text outside the JSON structure.

Output format:
[
  \x7b
    \"title\": \"Short title of the automation\",
    \"description\": \"Explanation of what this does and why it is useful.\",
    \"type\": \"new\",
    \"yaml\": \"alias: ... (The full valid YAML automation code)\"
  \x7d,
  \x7b
    \"title\": \"Fix for Hallway Light\",
    \"description\": \"The existing automation was missing a condition...\",
    \"type\": \"improvement\",
    \"yaml\": \"...\"
  \x7d
]

For each entity provided:
1. Analyze its function (light, sensor, lock, etc.).
2. Suggest 1-3 high-quality automations.
3. If an existing automation is provided, analyze it for errors or optimizations.
4. Ensure the YAML is valid Home Assistant automation syntax.
"

/-! ### Coordinator state and the refresh cycle
(coordinator.py lines 74-219) -/

/-- The coordinator's `self.data` dict.  Its keys are fixed: the dict is
written only at coordinator.py lines 98-104 (init), 195-201 (fresh dict on a
successful response), 203-210 (`dict.update` on the empty-response path,
which leaves `provider` untouched) and 218 (`last_error` on the fatal path).
No writer ever introduces any other key. -/
structure CoordData where
  suggestions_list : JValue
  last_update : Option Nat
  entities_processed : List String
  provider : String
  last_error : Option String

/-- Outcome of `_dispatch` (coordinator.py lines 384-410): the provider's
text, or `None` with `self._last_error` holding a message — every
`return None` path of `_dispatch` and of each provider method stores a
message first, and the success path leaves the `None` stored at entry. -/
inductive DispatchResult where
  | success (text : String)
  | failure (msg : String)

/-- The mutable coordinator attributes the claims touch (coordinator.py
lines 77-108 plus the `current_temperature` attribute that
`handle_generate_suggestions` creates dynamically). -/
structure CoordState where
  previous_entities : List (String × EntityMeta)
  SYSTEM_PROMPT : String
  scan_all : Bool
  selected_domains : List String
  entity_limit : Nat
  automation_read_file : Bool
  automation_limit : Nat
  current_temperature : Option ℚ
  provider_conf : String
  _last_error : Option String
  data : CoordData

/-- `_build_prompt` (coordinator.py lines 247-334): sort the picked entities
by recency, cut to `entity_limit`, render blocks, then the automation
overview (and, in file mode, the verbatim automation YAML), between the
system prompt and the strict-JSON instruction suffix. -/
def buildPrompt (st : CoordState) (env : PromptEnv)
    (entities : List (String × EntityMeta)) : String :=
  let selection := (sortByLastUpdatedDesc entities).take st.entity_limit
  let ent_sections := selection.map fun p => entityBlock env p.1 p.2
  let autom_sections := readAutomationsDefault env st.automation_limit 500
  let autom_codes :=
    if st.automation_read_file then readAutomationsFileMethod env st.automation_limit 500
    else []
  let base :=
    st.SYSTEM_PROMPT ++ "\n\n" ++
    "Here are the Entities (Recently Active):\n" ++ String.join ent_sections ++ "\n" ++
    "Existing Automations (Overview):\n" ++
    (if autom_sections.isEmpty then "None found." else String.join autom_sections) ++ "\n\n"
  let base :=
    if !autom_codes.isEmpty then
      base ++ "Existing Automation YAML (Analyze for improvements):\n" ++
        String.join autom_codes ++ "\n\n"
    else base
  base ++ "Provide your response in the specified JSON format."

/-- One run of `_async_update_data` (coordinator.py lines 136-219).  The
provider call is an oracle from the prompt to a `DispatchResult`; the second
component of the result is the prompt actually dispatched (`none` when the
cycle was a no-op and no prompt was built).  Every arm of the source's
`try` body is total here, so the enclosing `except` (lines 215-219) has
nothing to catch: the failure path already ends in an ordinary return. -/
def updateCycle (oracle : String → DispatchResult) (now : Nat)
    (states : List (String × HAState)) (env : PromptEnv) (st : CoordState) :
    CoordState × Option String :=
  let st1 : CoordState := { st with _last_error := none }
  let current := collectEntities st1.selected_domains states
  let picked := pickEntities st1.scan_all st1.previous_entities current
  if picked.isEmpty then
    ({ st1 with previous_entities := current }, none)
  else
    let prompt := buildPrompt st1 env picked
    match oracle prompt with
    | .success text =>
      if text ≠ "" then
        let suggestions := parseJsonResponse text
        ({ st1 with
            data := { suggestions_list := suggestions, last_update := some now,
                      entities_processed := picked.map Prod.fst,
                      provider := st1.provider_conf, last_error := none },
            previous_entities := current }, some prompt)
      else
        ({ st1 with
            data := { st1.data with
                        suggestions_list := .arr [], last_update := some now,
                        entities_processed := [], last_error := none },
            previous_entities := current }, some prompt)
    | .failure msg =>
      ({ st1 with
          _last_error := some msg,
          data := { st1.data with
                      suggestions_list := .arr [], last_update := some now,
                      entities_processed := [], last_error := some msg },
          previous_entities := current }, some prompt)

/-- Inputs to one refresh cycle, for iterating several cycles. -/
structure CycleInput where
  oracle : String → DispatchResult
  now : Nat
  states : List (String × HAState)
  env : PromptEnv

/-- Iterate `_async_update_data` over successive cycles. -/
def runCycles (ins : List CycleInput) (st : CoordState) : CoordState :=
  ins.foldl (fun s i => (updateCycle i.oracle i.now i.states i.env s).1) st

/-- `data.get("history", [])` as read by `AISuggestionsSensor.
_update_state_and_attributes` (sensor.py line 112).  The coordinator dict's
writers (see `CoordData`) never introduce a `history` key, so the lookup
always takes the default. -/
def dataGetHistory (_d : CoordData) : List JValue := []

/-- The coordinator state built by `AIAutomationCoordinator.__init__`
(coordinator.py lines 77-108) for a configured provider string. -/
def initialCoordState (provider : String) : CoordState :=
  { previous_entities := []
    SYSTEM_PROMPT := SYSTEM_PROMPT
    scan_all := false
    selected_domains := []
    entity_limit := 200
    automation_read_file := false
    automation_limit := 100
    current_temperature := none
    provider_conf := provider
    _last_error := none
    data := { suggestions_list := .arr [], last_update := none,
              entities_processed := [], provider := provider, last_error := none } }

/-! ### The `generate_suggestions` service handler
(`__init__.py` lines 67-119) -/

/-- The `domains` service field before normalisation: a comma-separated
string, a dict (whose keys are taken), or a ready list. -/
inductive DomainsArg where
  | ofStr (s : String)
  | ofDict (keys : List String)
  | ofList (l : List String)

/-- Python `str.split(',')`. -/
def splitCommaAux : List Char → List Char → List String
  | acc, [] => [(⟨acc.reverse⟩ : String)]
  | acc, ',' :: rest => (⟨acc.reverse⟩ : String) :: splitCommaAux [] rest
  | acc, c :: rest => splitCommaAux (c :: acc) rest

/-- Python whitespace stripped by `str.strip()`. -/
def isPyWS (c : Char) : Bool :=
  c = ' ' || c = '\t' || c = '\n' || c = '\r' || c = '\x0b' || c = '\x0c'

/-- Python `str.strip()`. -/
def pyStrip (s : String) : String :=
  ⟨((s.data.dropWhile isPyWS).reverse.dropWhile isPyWS).reverse⟩

/-- The normalisation at `__init__.py` lines 78-81:
`[d.strip() for d in domains.split(',') if d.strip()]` for strings, the key
list for dicts, a list unchanged. -/
def normalizeDomains : DomainsArg → List String
  | .ofStr s => ((splitCommaAux [] s.data).map pyStrip).filter (· ≠ "")
  | .ofDict ks => ks
  | .ofList l => l

/-- The fields `handle_generate_suggestions` reads from the service call
(`__init__.py` lines 69-76), after the schema's defaulting. -/
structure ServiceCallData where
  custom_prompt : Option String
  all_entities : Bool
  domains : DomainsArg
  entity_limit : Nat
  automation_read_yaml : Bool
  automation_limit : Nat
  temperature : ℚ

/-- `handle_generate_suggestions` (`__init__.py` lines 67-119): stash the
original prompt, install the per-run overrides on the shared coordinator,
run the refresh (`refresh` abstracts `await coordinator.
async_request_refresh()`; instantiate it with `updateCycle` applied to
concrete inputs), then the `finally` block (lines 111-116) restores
`SYSTEM_PROMPT`, `scan_all`, `selected_domains` and `current_temperature` —
and only those — whether the refresh succeeded or failed. -/
def handleGenerateSuggestions (call : ServiceCallData)
    (refresh : CoordState → CoordState) (st : CoordState) : CoordState :=
  let domains := normalizeDomains call.domains
  let original_prompt := st.SYSTEM_PROMPT
  let st :=
    match call.custom_prompt with
    | some cp =>
      if cp ≠ "" then
        { st with SYSTEM_PROMPT :=
            st.SYSTEM_PROMPT ++ "\n\nAdditional User Context:\n" ++ cp }
      else st
    | none => st
  let st :=
    { st with scan_all := call.all_entities, selected_domains := domains,
              entity_limit := call.entity_limit,
              automation_read_file := call.automation_read_yaml,
              automation_limit := call.automation_limit,
              current_temperature := some call.temperature }
  let st := refresh st
  { st with SYSTEM_PROMPT := original_prompt, scan_all := false,
            selected_domains := [], current_temperature := some (1 / 10 : ℚ) }

/-! ### The save/clear services and the action view
(`__init__.py` lines 139-146 and 248-268) -/

/-- The methods defined by `class AIAutomationCoordinator`
(coordinator.py lines 74-1153). -/
def coordinatorClassMethods : List String :=
  ["__init__", "_opt", "_budgets", "async_added_to_hass", "async_shutdown",
   "_async_update_data", "_parse_json_response", "_build_prompt",
   "_read_automations_default", "_read_automations_file_method", "_dispatch",
   "_openai", "_openai_azure", "_generic_openai", "_anthropic", "_google",
   "_groq", "_localai", "_ollama", "_custom_openai", "_mistral",
   "_perplexity", "_openrouter"]

/-- The instance attributes assigned in `__init__` and
`async_added_to_hass` (coordinator.py lines 77-108, 124-128). -/
def coordinatorInstanceAttrs : List String :=
  ["hass", "entry", "previous_entities", "last_update", "SYSTEM_PROMPT",
   "scan_all", "selected_domains", "entity_limit", "automation_read_file",
   "automation_limit", "session", "_last_error", "data", "device_registry",
   "entity_registry", "area_registry"]

/-- Modelled from the spec: the host platform's `DataUpdateCoordinator` base
class is an external collaborator (spec §1, §6-§7) providing only the
generic update-scheduling and listener primitives; it defines no
suggestion-saving or history methods. -/
def dataUpdateCoordinatorMethods : List String :=
  ["async_request_refresh", "async_refresh", "async_config_entry_first_refresh",
   "async_add_listener", "async_set_updated_data", "async_set_update_error",
   "async_shutdown"]

/-- Python attribute resolution on a coordinator instance: instance dict,
then class dict, then the base class. -/
def coordinatorHasAttr (name : String) : Bool :=
  coordinatorInstanceAttrs.contains name || coordinatorClassMethods.contains name ||
    dataUpdateCoordinatorMethods.contains name

/-- The on-disk artefacts the save/clear operations would touch. -/
structure ExternalState where
  rules_file : List String
  history_file : List JValue

/-- The `save_suggestion` service handler (`__init__.py` lines 139-140,
145): `await coordinator.handle_save_suggestion(call)` — the attribute
access raises `AttributeError` when the coordinator has no such attribute,
before anything is written. -/
def saveSuggestionServiceCall (fs : ExternalState) : Except PyErr ExternalState :=
  if coordinatorHasAttr "handle_save_suggestion" then .ok fs
  else .error .attributeError

/-- The `clear_suggestion_history` service handler (`__init__.py`
lines 142-143, 146): `await coordinator.handle_clear_history(call)`. -/
def clearHistoryServiceCall (fs : ExternalState) : Except PyErr ExternalState :=
  if coordinatorHasAttr "handle_clear_history" then .ok fs
  else .error .attributeError

/-- `AIAutomationActionView.post` (`__init__.py` lines 254-268): the accept
branch calls `coordinator.handle_save_suggestion(...)` with no enclosing
`try`, decline acknowledges, anything else is a 400 response (modelled as
`success = false`). -/
def actionViewPost (action : String) (fs : ExternalState) :
    Except PyErr (Bool × ExternalState) :=
  if action = "accept" then
    match saveSuggestionServiceCall fs with
    | .ok fs' => .ok (true, fs')
    | .error e => .error e
  else if action = "decline" then .ok (true, fs)
  else .ok (false, fs)

/-! ### Token-budget truncation (every provider method)

Each of the twelve provider methods repeats the same guard before sending
(coordinator.py lines 424-425, 488-489, 554-555, 610-611, 670-671, 733-734,
795-796, 855-856, 920-921, 976-977, 1035-1036, 1097-1098):

`if len(prompt) // 4 > in_budget: prompt = prompt[: in_budget * 4]`. -/

/-- The character-count token estimate `len(prompt) // 4`. -/
def estimateTokens (s : String) : Nat :=
  s.length / 4

/-- The shared pre-send truncation guard of the provider methods. -/
def truncateForBudget (in_budget : Nat) (prompt : String) : String :=
  if prompt.length / 4 > in_budget then strTake prompt (in_budget * 4) else prompt

/-! ### Concrete fixtures used by the counterexamples and witnesses -/

/-- Substring occurrence over character lists. -/
def containsChars (hay pat : List Char) : Bool :=
  match hay with
  | [] => (stripChars pat []).isSome
  | _ :: rest => (stripChars pat hay).isSome || containsChars rest pat

/-- Whether `pat` occurs as a contiguous substring of `s`. -/
def containsStr (s pat : String) : Bool :=
  containsChars s.data pat.data

/-- A broken entity: `light.kitchen` in state `unavailable`. -/
def kitchenUnavailable : String × HAState :=
  ("light.kitchen",
   { state := "unavailable", attributes := [("friendly_name", "Kitchen Light")],
     last_changed := 50, last_updated := 50 })

/-- A healthy entity. -/
def fanOn : String × HAState :=
  ("switch.fan",
   { state := "on", attributes := [("friendly_name", "Fan")],
     last_changed := 60, last_updated := 60 })

/-- A second healthy entity, first observed in cycle 2 of the C6 scenario. -/
def lampOn : String × HAState :=
  ("light.lamp",
   { state := "on", attributes := [("friendly_name", "Lamp")],
     last_changed := 70, last_updated := 70 })

/-- A prompt environment with empty registries, no automations and no
readable automations file. -/
def emptyEnv : PromptEnv :=
  { entity_registry := [], device_registry := [], area_registry := [],
    automation_states := [], automations_file := none }

/-- A coordinator state mid-life: an earlier successful cycle left one
current suggestion. -/
def stateWithSuggestion : CoordState :=
  { initialCoordState "OpenAI" with
      data := { suggestions_list := .arr [.obj [("title", .str "earlier")]],
                last_update := some 1, entities_processed := ["switch.fan"],
                provider := "OpenAI", last_error := none } }

/-- The truncated provider reply of the C7 scenario: the final object's
closing brace is missing and there is no closing bracket. -/
def truncatedReply : String :=
  "[\x7b\"title\": \"A\"\x7d, \x7b\"title\": \"B\""

/-- A `generate_suggestions` service call carrying every per-run override. -/
def overrideCall : ServiceCallData :=
  { custom_prompt := some "Focus on lights"
    all_entities := true
    domains := .ofStr "light, switch"
    entity_limit := 5
    automation_read_yaml := true
    automation_limit := 7
    temperature := (9 : ℚ) / 10 }

/-- The coordinator state after `overrideCall` runs against a provider whose
dispatch fails. -/
def overrideRunResult : CoordState :=
  handleGenerateSuggestions overrideCall
    (fun s => (updateCycle (fun _ => .failure "boom") 0 [] emptyEnv s).1)
    (initialCoordState "OpenAI")

/-! ## Helper lemmas about one refresh cycle -/

/-- Every path of `_async_update_data` executes
`self.previous_entities = current` (coordinator.py lines 172 and 212). -/
theorem updateCycle_previous_entities (oracle : String → DispatchResult) (now : Nat)
    (states : List (String × HAState)) (env : PromptEnv) (st : CoordState) :
    ((updateCycle oracle now states env st).1).previous_entities
      = collectEntities st.selected_domains states := by
  unfold updateCycle
  dsimp only
  split
  · rfl
  · split
    · split <;> rfl
    · rfl

/-- `_async_update_data` never assigns `scan_all`. -/
theorem updateCycle_scan_all (oracle : String → DispatchResult) (now : Nat)
    (states : List (String × HAState)) (env : PromptEnv) (st : CoordState) :
    ((updateCycle oracle now states env st).1).scan_all = st.scan_all := by
  unfold updateCycle
  dsimp only
  split
  · rfl
  · split
    · split <;> rfl
    · rfl

/-- `_async_update_data` never assigns `selected_domains`. -/
theorem updateCycle_selected_domains (oracle : String → DispatchResult) (now : Nat)
    (states : List (String × HAState)) (env : PromptEnv) (st : CoordState) :
    ((updateCycle oracle now states env st).1).selected_domains = st.selected_domains := by
  unfold updateCycle
  dsimp only
  split
  · rfl
  · split
    · split <;> rfl
    · rfl

/-! ## C3 -/

/-- C3 (amended): `_parse_json_response` always returns without raising (the
result of `parseJsonResponseE` is `.ok` for every input), and the returned
value is the decoded JSON value unchanged — in particular, when the whole
input parses, stage 1 passes the decoded value through as is, preserving the
order of the array it decodes; but that pass-through also returns non-list
values (see the counterexample), so the original "always returns a list" is
false. -/
theorem c3_parse_total_and_passthrough (s : String) :
    (∃ v, parseJsonResponseE s = .ok v) ∧
    (∀ v, jsonLoads s = .ok v → parseJsonResponseE s = .ok v) := by
  constructor
  · cases h : jsonLoads s with
    | ok v => exact ⟨v, by simp [parseJsonResponseE, h]⟩
    | error e =>
      cases h2 : stage23 s with
      | ok o =>
        cases o with
        | some v => exact ⟨v, by simp [parseJsonResponseE, h, h2]⟩
        | none => exact ⟨.arr [], by simp [parseJsonResponseE, h, h2]⟩
      | error e2 => exact ⟨.arr [], by simp [parseJsonResponseE, h, h2]⟩
  · intro v hv
    simp [parseJsonResponseE, hv]

/-- C3 witness: a well-formed array input is decoded in source order. -/
theorem c3_witness :
    jsonLoads "[1,2]" = .ok (.arr [.num 1, .num 2]) ∧
    parseJsonResponseE "[1,2]" = .ok (.arr [.num 1, .num 2]) :=
  ⟨rfl, (c3_parse_total_and_passthrough "[1,2]").2 _ rfl⟩

/-- C3 counterexample: on the input `\x7b\x7d` (a JSON object), stage 1 of
`_parse_json_response` succeeds and the function returns the object — a
non-list value — so the claim "returns a list for every input string" is
false. -/
theorem c3_counterexample :
    parseJsonResponseE "\x7b\x7d" = .ok (.obj []) ∧
    (JValue.obj []).isList = false :=
  ⟨rfl, rfl⟩

/-! ## C7 -/

/-- C7 (amended): on an input whose direct parse fails, with no fenced code
block and no `]` anywhere — exactly the shape of a truncated array whose
final object lost its closing brace — `_parse_json_response` returns the
empty list without raising; it does **not** recover the complete leading
objects, because the bracket-slice fallback requires a closing bracket and no
trailing-comma or close-brace repair exists in the code. -/
theorem c7_truncation_returns_empty (s : String)
    (h1 : jsonLoads s = .error .jsonDecodeError)
    (h2 : findCodeBlock s = none)
    (h3 : sRfind s ']' = none) :
    parseJsonResponseE s = .ok (.arr []) := by
  have hst : stage23 s = .ok none := by
    unfold stage23
    rw [h2, h3]
    cases sFind s '[' <;> rfl
  simp [parseJsonResponseE, h1, hst]

/-- C7 witness: the truncated reply of the claim's scenario hits exactly the
amended theorem's hypotheses. -/
theorem c7_witness :
    jsonLoads truncatedReply = .error .jsonDecodeError ∧
    findCodeBlock truncatedReply = none ∧
    sRfind truncatedReply ']' = none ∧
    parseJsonResponseE truncatedReply = .ok (.arr []) :=
  ⟨rfl, rfl, rfl, c7_truncation_returns_empty truncatedReply rfl rfl rfl⟩

/-- C7 counterexample: for the truncated array
`[\x7b"title": "A"\x7d, \x7b"title": "B"` the parser returns `[]`, not the
recovered complete leading object `\x7b"title": "A"\x7d` that the claim
demands. -/
theorem c7_counterexample :
    parseJsonResponseE truncatedReply = .ok (.arr []) ∧
    JValue.arr [] ≠ JValue.arr [.obj [("title", .str "A")]] := by
  refine ⟨rfl, ?_⟩
  intro h
  injection h with h1
  exact List.noConfusion h1

/-! ## C8 -/

/-- C8: for every input-token budget and prompt, the guard shared by all
twelve provider methods sends a prompt whose character-based estimate fits
the budget, and a prompt whose estimate exceeds the budget is never passed
through unmodified.  The guard is a total function, so an oversized prompt
cannot crash the send path. -/
theorem c8_truncation_fits_budget (b : Nat) (p : String) :
    estimateTokens (truncateForBudget b p) ≤ b ∧
    (estimateTokens p > b → truncateForBudget b p ≠ p) := by
  have hlen : ∀ n, (strTake p n).length = min n p.length := by
    intro n
    show (p.data.take n).length = min n p.data.length
    exact List.length_take n p.data
  unfold truncateForBudget estimateTokens
  by_cases h : p.length / 4 > b
  · have h4 : (b + 1) * 4 ≤ p.length := by
      have : b + 1 ≤ p.length / 4 := h
      exact (Nat.le_div_iff_mul_le (by norm_num)).mp this
    have hmin : min (b * 4) p.length = b * 4 := by
      apply min_eq_left
      omega
    constructor
    · simp only [h, if_pos, hlen, hmin]
      omega
    · intro _
      simp only [h, if_pos]
      intro heq
      have := congrArg String.length heq
      rw [hlen, hmin] at this
      omega
  · constructor
    · simp only [h, if_neg, not_false_eq_true]
      omega
    · intro hgt
      exact absurd hgt h

/-- C8 witness: a 12-character prompt against a budget of 2 tokens is
truncated to 8 characters. -/
theorem c8_witness :
    estimateTokens "aaaaaaaaaaaa" > 2 ∧
    estimateTokens (truncateForBudget 2 "aaaaaaaaaaaa") ≤ 2 ∧
    truncateForBudget 2 "aaaaaaaaaaaa" ≠ "aaaaaaaaaaaa" :=
  ⟨by decide, (c8_truncation_fits_budget 2 "aaaaaaaaaaaa").1,
    (c8_truncation_fits_budget 2 "aaaaaaaaaaaa").2 (by decide)⟩

/-! ## C1 -/

/-- C1 (amended): when the pick-set is non-empty and the provider dispatch
fails, the cycle records the failure message both in `self._last_error` and
in `data["last_error"]`, **resets the current suggestion list to the empty
list** (coordinator.py line 205 — not "unchanged", see the counterexample),
updates the previously-seen baseline to the full current snapshot, and keeps
the previous `provider` value; the failure arm ends in an ordinary return,
so nothing raises out of `_async_update_data`. -/
theorem c1_dispatch_failure_isolated (oracle : String → DispatchResult) (now : Nat)
    (states : List (String × HAState)) (env : PromptEnv) (st : CoordState) (msg : String)
    (hpick : pickEntities st.scan_all st.previous_entities
        (collectEntities st.selected_domains states) ≠ [])
    (hdisp : oracle (buildPrompt { st with _last_error := none } env
        (pickEntities st.scan_all st.previous_entities
          (collectEntities st.selected_domains states))) = .failure msg) :
    ((updateCycle oracle now states env st).1).data.last_error = some msg ∧
    ((updateCycle oracle now states env st).1)._last_error = some msg ∧
    ((updateCycle oracle now states env st).1).data.suggestions_list = .arr [] ∧
    ((updateCycle oracle now states env st).1).previous_entities
      = collectEntities st.selected_domains states ∧
    ((updateCycle oracle now states env st).1).data.provider = st.data.provider := by
  have hne : (pickEntities st.scan_all st.previous_entities
      (collectEntities st.selected_domains states)).isEmpty = false := by
    cases hc : pickEntities st.scan_all st.previous_entities
        (collectEntities st.selected_domains states) with
    | nil => exact absurd hc hpick
    | cons a l => rfl
  unfold updateCycle
  dsimp only
  rw [hne, hdisp]
  exact ⟨rfl, rfl, rfl, rfl, rfl⟩

/-- C1 witness: a concrete failing cycle through
`c1_dispatch_failure_isolated`. -/
theorem c1_witness :
    (pickEntities stateWithSuggestion.scan_all stateWithSuggestion.previous_entities
        (collectEntities stateWithSuggestion.selected_domains [fanOn]) ≠ []) ∧
    (((updateCycle (fun _ => .failure "Request timeout") 7 [fanOn] emptyEnv
        stateWithSuggestion).1).data.last_error = some "Request timeout" ∧
     ((updateCycle (fun _ => .failure "Request timeout") 7 [fanOn] emptyEnv
        stateWithSuggestion).1)._last_error = some "Request timeout" ∧
     ((updateCycle (fun _ => .failure "Request timeout") 7 [fanOn] emptyEnv
        stateWithSuggestion).1).data.suggestions_list = .arr [] ∧
     ((updateCycle (fun _ => .failure "Request timeout") 7 [fanOn] emptyEnv
        stateWithSuggestion).1).previous_entities
       = collectEntities stateWithSuggestion.selected_domains [fanOn] ∧
     ((updateCycle (fun _ => .failure "Request timeout") 7 [fanOn] emptyEnv
        stateWithSuggestion).1).data.provider = stateWithSuggestion.data.provider) :=
  ⟨by decide,
   c1_dispatch_failure_isolated (fun _ => .failure "Request timeout") 7 [fanOn]
     emptyEnv stateWithSuggestion "Request timeout" (by decide) rfl⟩

/-- C1 counterexample: a dispatch failure does **not** leave the current
suggestion list unchanged — the previous cycle's suggestion is replaced by
the empty list (coordinator.py line 205). -/
theorem c1_counterexample :
    stateWithSuggestion.data.suggestions_list
      = .arr [.obj [("title", .str "earlier")]] ∧
    ((updateCycle (fun _ => .failure "Request timeout") 7 [fanOn] emptyEnv
        stateWithSuggestion).1).data.suggestions_list = .arr [] ∧
    ((updateCycle (fun _ => .failure "Request timeout") 7 [fanOn] emptyEnv
        stateWithSuggestion).1).data.suggestions_list
      ≠ stateWithSuggestion.data.suggestions_list := by
  refine ⟨rfl, rfl, ?_⟩
  intro h
  have h1 : JValue.arr [] = JValue.arr [.obj [("title", .str "earlier")]] := h
  injection h1 with h2
  exact List.noConfusion h2

/-! ## C2 -/

/-- The collector never returns an entry whose recorded state is
`unavailable` or `unknown` (coordinator.py lines 152-154). -/
theorem collectEntities_state_not_broken (doms : List String)
    (states : List (String × HAState)) (p : String × EntityMeta)
    (hp : p ∈ collectEntities doms states) :
    p.2.state ≠ "unavailable" ∧ p.2.state ≠ "unknown" := by
  simp only [collectEntities, List.mem_filterMap] at hp
  obtain ⟨a, -, hfa⟩ := hp
  split at hfa
  · simp at hfa
  · split at hfa
    · simp at hfa
    · rename_i hcond
      obtain rfl := Option.some.inj hfa
      simp only [Bool.or_eq_true, decide_eq_true_eq, not_or] at hcond
      exact ⟨hcond.1, hcond.2⟩

/-- Membership through the stable descending insertion. -/
theorem mem_insertByLastUpdatedDesc (x a : String × EntityMeta)
    (l : List (String × EntityMeta)) :
    a ∈ insertByLastUpdatedDesc x l ↔ a = x ∨ a ∈ l := by
  induction l with
  | nil => simp [insertByLastUpdatedDesc]
  | cons y ys ih =>
    simp only [insertByLastUpdatedDesc]
    split
    · simp only [List.mem_cons, ih]
      tauto
    · simp only [List.mem_cons]

/-- The recency sort permutes but does not add or drop entries. -/
theorem mem_sortByLastUpdatedDesc (a : String × EntityMeta)
    (l : List (String × EntityMeta)) :
    a ∈ sortByLastUpdatedDesc l ↔ a ∈ l := by
  induction l with
  | nil => simp [sortByLastUpdatedDesc]
  | cons x xs ih =>
    show a ∈ insertByLastUpdatedDesc x (sortByLastUpdatedDesc xs) ↔ _
    rw [mem_insertByLastUpdatedDesc]
    simp [ih]

/-- The pick-set only draws from the current snapshot. -/
theorem mem_pickEntities (sa : Bool) (prev cur : List (String × EntityMeta))
    (p : String × EntityMeta) (hp : p ∈ pickEntities sa prev cur) : p ∈ cur := by
  unfold pickEntities at hp
  split at hp
  · exact hp
  · exact List.mem_of_mem_filter hp

/-- C2 (amended): an entity in state `unavailable` or `unknown` at
collection time is excluded from the snapshot (`collectEntities` skips it
with `continue` and records it nowhere), hence from the pick-set and from
the selection `(sortByLastUpdatedDesc entities).take entity_limit` from
which `buildPrompt` renders the normal entity blocks — so it never appears
in a normal entity block.  No separate broken list is kept and the built
prompt has no broken-entities section (see the counterexample).  This says
nothing about the automation-overview section, which
`_read_automations_default` renders from `automation.*` states without any
state filter. -/
theorem c2_unavailable_excluded (doms : List String) (states : List (String × HAState))
    (sa : Bool) (prev : List (String × EntityMeta)) (n : Nat) (p : String × EntityMeta)
    (hp : p ∈ (sortByLastUpdatedDesc
        (pickEntities sa prev (collectEntities doms states))).take n) :
    p.2.state ≠ "unavailable" ∧ p.2.state ≠ "unknown" := by
  have h1 : p ∈ sortByLastUpdatedDesc (pickEntities sa prev (collectEntities doms states)) :=
    List.take_subset n _ hp
  have h2 : p ∈ pickEntities sa prev (collectEntities doms states) :=
    (mem_sortByLastUpdatedDesc _ _).mp h1
  exact collectEntities_state_not_broken doms states p (mem_pickEntities sa prev _ p h2)

/-- C2 witness: a healthy entity reaches the prompt's entity-block selection
and its recorded state is neither `unavailable` nor `unknown`. -/
theorem c2_witness :
    ("switch.fan", entityRecord fanOn) ∈ (sortByLastUpdatedDesc
        (pickEntities false [] (collectEntities [] [kitchenUnavailable, fanOn]))).take 200 ∧
    ((entityRecord fanOn).state ≠ "unavailable" ∧
     (entityRecord fanOn).state ≠ "unknown") :=
  ⟨by decide,
   c2_unavailable_excluded [] [kitchenUnavailable, fanOn] false [] 200
     ("switch.fan", entityRecord fanOn) (by decide)⟩

set_option maxRecDepth 40000 in
/-- C2 counterexample: in the cycle where `light.kitchen` is `unavailable`
and `switch.fan` is healthy (and no automation entities exist), the spec's
collector contract (`collectEntitiesSpec`) tracks `light.kitchen` in the
broken list, a prompt is actually built and dispatched, and yet that
concrete prompt does not mention `light.kitchen` at all — in particular it
has no broken-entities section — so the claim that such an entity "is
tracked in a separate broken list" and is shown "in the broken-entities
section" is false of the code. -/
theorem c2_counterexample :
    (collectEntitiesSpec [] [kitchenUnavailable, fanOn]).2 = ["light.kitchen"] ∧
    ((updateCycle (fun _ => .success "[]") 7 [kitchenUnavailable, fanOn] emptyEnv
        (initialCoordState "OpenAI")).2).isSome = true ∧
    containsStr
      (((updateCycle (fun _ => .success "[]") 7 [kitchenUnavailable, fanOn] emptyEnv
          (initialCoordState "OpenAI")).2).getD "")
      "light.kitchen" = false :=
  ⟨rfl, rfl, rfl⟩

/-! ## C6 -/

/-- C6: with scan-all false, the pick-set of cycle 2 is exactly the
cycle-2 snapshot minus the key-set of the cycle-1 snapshot: membership in
the cycle-2 pick-set is equivalent to membership in E2 with a key absent
from E1's keys, and in particular an id present in the previous cycle's
baseline never reappears. -/
theorem c6_delta_selection (o1 : String → DispatchResult) (n1 : Nat)
    (states1 states2 : List (String × HAState)) (env1 : PromptEnv) (st0 : CoordState)
    (hscan : st0.scan_all = false) :
    (∀ p, p ∈ pickEntities ((updateCycle o1 n1 states1 env1 st0).1).scan_all
          ((updateCycle o1 n1 states1 env1 st0).1).previous_entities
          (collectEntities st0.selected_domains states2)
        ↔ (p ∈ collectEntities st0.selected_domains states2 ∧
           p.1 ∉ (collectEntities st0.selected_domains states1).map Prod.fst)) ∧
    (∀ k, k ∈ (collectEntities st0.selected_domains states1).map Prod.fst →
      ∀ m, (k, m) ∉ pickEntities ((updateCycle o1 n1 states1 env1 st0).1).scan_all
          ((updateCycle o1 n1 states1 env1 st0).1).previous_entities
          (collectEntities st0.selected_domains states2)) := by
  have hmem : ∀ p : String × EntityMeta,
      p ∈ pickEntities ((updateCycle o1 n1 states1 env1 st0).1).scan_all
          ((updateCycle o1 n1 states1 env1 st0).1).previous_entities
          (collectEntities st0.selected_domains states2)
        ↔ (p ∈ collectEntities st0.selected_domains states2 ∧
           p.1 ∉ (collectEntities st0.selected_domains states1).map Prod.fst) := by
    intro p
    rw [updateCycle_scan_all, updateCycle_previous_entities, hscan]
    simp [pickEntities, List.mem_filter]
  refine ⟨hmem, ?_⟩
  intro k hk m hm
  exact ((hmem (k, m)).mp hm).2 hk

/-- C6 witness: `switch.fan` was observed in cycle 1, so cycle 2 picks only
the new `light.lamp`. -/
theorem c6_witness :
    (initialCoordState "OpenAI").scan_all = false ∧
    ((∀ p, p ∈ pickEntities
          ((updateCycle (fun _ => .failure "x") 1 [fanOn] emptyEnv
              (initialCoordState "OpenAI")).1).scan_all
          ((updateCycle (fun _ => .failure "x") 1 [fanOn] emptyEnv
              (initialCoordState "OpenAI")).1).previous_entities
          (collectEntities (initialCoordState "OpenAI").selected_domains [fanOn, lampOn])
        ↔ (p ∈ collectEntities (initialCoordState "OpenAI").selected_domains [fanOn, lampOn] ∧
           p.1 ∉ (collectEntities (initialCoordState "OpenAI").selected_domains
              [fanOn]).map Prod.fst)) ∧
     (∀ k, k ∈ (collectEntities (initialCoordState "OpenAI").selected_domains
          [fanOn]).map Prod.fst →
        ∀ m, (k, m) ∉ pickEntities
            ((updateCycle (fun _ => .failure "x") 1 [fanOn] emptyEnv
                (initialCoordState "OpenAI")).1).scan_all
            ((updateCycle (fun _ => .failure "x") 1 [fanOn] emptyEnv
                (initialCoordState "OpenAI")).1).previous_entities
            (collectEntities (initialCoordState "OpenAI").selected_domains
              [fanOn, lampOn]))) :=
  ⟨rfl, c6_delta_selection (fun _ => .failure "x") 1 [fanOn] [fanOn, lampOn]
    emptyEnv (initialCoordState "OpenAI") rfl⟩

/-! ## C9 -/

/-- C9: `_build_prompt` is a pure function of the coordinator tunables, the
registries/automation surroundings and the picked entity map — the embedding
of coordinator.py lines 247-334 takes no clock and no randomness (the
module-level `random` import is unused there) — so building twice from
identical inputs yields byte-identical strings. -/
theorem c9_prompt_deterministic (st st' : CoordState) (env env' : PromptEnv)
    (ents ents' : List (String × EntityMeta))
    (h1 : st = st') (h2 : env = env') (h3 : ents = ents') :
    buildPrompt st env ents = buildPrompt st' env' ents' := by
  subst h1
  subst h2
  subst h3
  rfl

/-- C9 witness: two builds from the same concrete inputs coincide. -/
theorem c9_witness :
    initialCoordState "OpenAI" = initialCoordState "OpenAI" ∧
    buildPrompt (initialCoordState "OpenAI") emptyEnv (collectEntities [] [fanOn])
      = buildPrompt (initialCoordState "OpenAI") emptyEnv (collectEntities [] [fanOn]) :=
  ⟨rfl, c9_prompt_deterministic _ _ _ _ _ _ rfl rfl rfl⟩

/-! ## C4 -/

/-- C4 (code evaluation): after any number of refresh cycles — in
particular after more than 100 cycles that each produced suggestions — the
`history` attribute the sensor exposes is still the empty list: no writer of
the coordinator's data dict ever introduces a `history` key, nothing is
persisted, and the length is 0, never the claimed 100. -/
theorem c4_history_never_populated (ins : List CycleInput) (st : CoordState) :
    dataGetHistory ((runCycles ins st).data) = [] ∧
    (dataGetHistory ((runCycles ins st).data)).length = 0 ∧
    (dataGetHistory ((runCycles ins st).data)).length ≠ 100 :=
  ⟨rfl, rfl, by simp [dataGetHistory]⟩

/-! ## C5 -/

/-- C5 (code evaluation): after a `generate_suggestions` run with every
override set (and a failing provider), the `finally` block restores only
`SYSTEM_PROMPT`, `scan_all`, `selected_domains` and `current_temperature`
(`__init__.py` lines 111-116); `entity_limit`, `automation_read_file` and
`automation_limit` keep their overridden values `5`, `true` and `7` instead
of the stored defaults `200`, `false` and `100`, so those overrides are
observable in a subsequent default-triggered cycle. -/
theorem c5_overrides_not_all_restored :
    overrideRunResult.entity_limit = 5 ∧
    overrideRunResult.automation_read_file = true ∧
    overrideRunResult.automation_limit = 7 ∧
    overrideRunResult.SYSTEM_PROMPT = SYSTEM_PROMPT ∧
    overrideRunResult.scan_all = false ∧
    overrideRunResult.selected_domains = [] ∧
    overrideRunResult.current_temperature = some (1 / 10 : ℚ) ∧
    (initialCoordState "OpenAI").entity_limit = 200 ∧
    (initialCoordState "OpenAI").automation_read_file = false ∧
    (initialCoordState "OpenAI").automation_limit = 100 :=
  ⟨rfl, rfl, rfl, rfl, rfl, rfl, rfl, rfl, rfl, rfl⟩

/-! ## C10 -/

/-- C10: neither `handle_save_suggestion` nor `handle_clear_history`
resolves on a coordinator instance (they appear in no instance attribute, no
`AIAutomationCoordinator` method and no base-class primitive), so the
`save_suggestion` service, the `clear_suggestion_history` service and the
action view's accept branch all raise `AttributeError` at the attribute
access — before any rules-file append or history clearing could happen, so
the external state is returned unchanged in no success case at all. -/
theorem c10_service_methods_missing (fs : ExternalState) :
    coordinatorHasAttr "handle_save_suggestion" = false ∧
    coordinatorHasAttr "handle_clear_history" = false ∧
    saveSuggestionServiceCall fs = .error .attributeError ∧
    clearHistoryServiceCall fs = .error .attributeError ∧
    actionViewPost "accept" fs = .error .attributeError :=
  ⟨rfl, rfl, rfl, rfl, rfl⟩

end AISuggester
